import Mathlib

/-!
Shallow embedding of the `open_badges` Solana program (BrunoSNT/openbadges),
covering the modules referenced by the verified claims:
`credential_status.rs`, `proof.rs`, `lib.rs` (`initialize_revocation_list`),
`formats/jwt/verifier.rs`, `compliance_validator.rs` and `did/resolver.rs`.

Conventions used throughout:
* Rust `u32` arithmetic is `Nat` with an explicit `% 2^32` where a
  wrap-around is expressible (`(capacity + 7) / 8`, `current_size += 1`).
* Rust strings that undergo byte-level operations (the `proof.rs` and
  `did/resolver.rs` decoders) are `List Nat` of their UTF-8 bytes; strings
  that are only compared or tested for emptiness are Lean `String`.
* Rust `Result<T>` (anchor) is `Except VErr T`; `msg!` logging is omitted.
* The external hash collaborator `solana_program::hash::hash` (SHA-256,
  an external crate, not part of this repository) is passed as an explicit
  oracle parameter `hash : List Nat → List Nat`; the lemma
  `ProofSuite.verify_proof_hash_oblivious` shows every verification outcome
  proved here is the same for every choice of this oracle.
* The Solana clock / system time oracle is likewise an explicit argument
  (`current_timestamp`, `current_time`).
-/

/-- Error kinds from `common/errors.rs` (`ValidationError`) that the embedded
functions can produce, plus `StatusListFull` from the `StatusError` enum of
`credential_status.rs` (declared in the source but raised nowhere). -/
inductive VErr where
  | InvalidJson
  | MissingRequiredField
  | InvalidKey
  | MissingKeyFragment
  | VerificationMethodNotFound
  | NoPublicKeyFound
  | UnsupportedKeyEncoding
  | UnsupportedKeyType
  | InvalidCapacity
  | IndexOutOfBounds
  | InvalidJwtFormat
  | UnsupportedAlgorithm
  | InvalidIssuer
  | CredentialNotYetValid
  | CredentialExpired
  | ClaimMismatch
  | StatusListFull
  deriving DecidableEq, Repr

/-- Modulus of Rust `u32` arithmetic. -/
def U32 : Nat := 4294967296

/-- Bytes of an ASCII string literal (for ASCII text, `str::as_bytes` yields
exactly the code points). Every literal appearing in the embedded code is
ASCII. -/
def strBytes (s : String) : List Nat := s.data.map Char.toNat

/-- Structure `RevocationListMetadata` of `credential_status.rs`. -/
structure RevocationListMetadata where
  name : String
  description : String
  status_list_url : String
  version : String
  deriving DecidableEq, Repr

/-- Account structure `RevocationList` of `credential_status.rs`.
`authority : Pubkey` is reduced to the key's 32-byte value as a number;
`status_bits : Vec<u8>` is a list of byte values. -/
structure RevocationList where
  authority : Nat
  list_id : String
  capacity : Nat
  current_size : Nat
  status_bits : List Nat
  metadata : RevocationListMetadata
  created_at : String
  updated_at : String
  deriving DecidableEq, Repr

/-- Function `RevocationList::new` (credential_status.rs 151-180).  No input
validation happens here; `(capacity + 7) / 8` is `u32` arithmetic, hence the
explicit wrap. -/
def RevocationList.new (authority : Nat) (list_id : String) (capacity : Nat)
    (name description status_list_url : String) (current_timestamp : String) :
    Except VErr RevocationList :=
  let required_bytes := ((capacity + 7) % U32) / 8
  .ok { authority := authority
        list_id := list_id
        capacity := capacity
        current_size := 0
        status_bits := List.replicate required_bytes 0
        metadata := { name := name
                      description := description
                      status_list_url := status_list_url
                      version := "1.0" }
        created_at := current_timestamp
        updated_at := current_timestamp }

/-- Function `RevocationList::add_credential` (credential_status.rs 183-194).
Only the bound `index < capacity` is checked; the bit array is untouched and
`current_size` is incremented (`u32` wrap made explicit). -/
def RevocationList.add_credential (s : RevocationList) (index : Nat)
    (current_timestamp : String) : Except VErr RevocationList :=
  if index ≥ s.capacity then .error .IndexOutOfBounds
  else
    .ok { s with current_size := (s.current_size + 1) % U32
                 updated_at := current_timestamp }

/-- Function `RevocationList::revoke_credential` (credential_status.rs
197-215): sets bit `index % 8` of byte `index / 8` after the two bounds
checks. -/
def RevocationList.revoke_credential (s : RevocationList) (index : Nat)
    (current_timestamp : String) : Except VErr RevocationList :=
  if index ≥ s.capacity then .error .IndexOutOfBounds
  else
    let byte_index := index / 8
    let bit_index := index % 8
    if byte_index ≥ s.status_bits.length then .error .IndexOutOfBounds
    else
      .ok { s with
            status_bits := s.status_bits.set byte_index
              ((s.status_bits.getD byte_index 0) ||| (1 <<< bit_index))
            updated_at := current_timestamp }

/-- Function `RevocationList::reactivate_credential` (credential_status.rs
218-236): clears the bit with the mask `!(1u8 << bit_index)`, i.e.
`255 ^^^ (1 <<< bit_index)`. -/
def RevocationList.reactivate_credential (s : RevocationList) (index : Nat)
    (current_timestamp : String) : Except VErr RevocationList :=
  if index ≥ s.capacity then .error .IndexOutOfBounds
  else
    let byte_index := index / 8
    let bit_index := index % 8
    if byte_index ≥ s.status_bits.length then .error .IndexOutOfBounds
    else
      .ok { s with
            status_bits := s.status_bits.set byte_index
              ((s.status_bits.getD byte_index 0) &&& (255 ^^^ (1 <<< bit_index)))
            updated_at := current_timestamp }

/-- Function `RevocationList::is_revoked` (credential_status.rs 239-253). -/
def RevocationList.is_revoked (s : RevocationList) (index : Nat) :
    Except VErr Bool :=
  if index ≥ s.capacity then .error .IndexOutOfBounds
  else
    let byte_index := index / 8
    let bit_index := index % 8
    if byte_index ≥ s.status_bits.length then .error .IndexOutOfBounds
    else .ok (((s.status_bits.getD byte_index 0) &&& (1 <<< bit_index)) != 0)

/-- Structure `BatchRevocationOperation` of `credential_status.rs`. -/
structure BatchRevocationOperation where
  indices_to_revoke : List Nat
  indices_to_reactivate : List Nat
  reason : Option String
  timestamp : String
  deriving DecidableEq, Repr

/-- Function `RevocationList::batch_operation` (credential_status.rs 306-330):
the revoke loop runs first, the reactivate loop second, each aborting on the
first error exactly like the `?` operator in the source. -/
def RevocationList.batch_operation (s : RevocationList)
    (operation : BatchRevocationOperation) : Except VErr RevocationList := do
  let s1 ← operation.indices_to_revoke.foldlM
    (fun st index => st.revoke_credential index operation.timestamp) s
  let s2 ← operation.indices_to_reactivate.foldlM
    (fun st index => st.reactivate_credential index operation.timestamp) s1
  pure s2

/-- Entry point `initialize_revocation_list` (lib.rs 474-510).  The Anchor
context is reduced to the authority key, and the Clock-derived timestamp is
the explicit `current_timestamp` oracle value. -/
def initialize_revocation_list (authority : Nat) (list_id : String)
    (capacity : Nat) (name description status_list_url : String)
    (current_timestamp : String) : Except VErr RevocationList :=
  if capacity = 0 ∨ capacity > 1000000 then .error .InvalidCapacity
  else if name = "" ∨ description = "" then .error .MissingRequiredField
  else
    RevocationList.new authority list_id capacity name description
      status_list_url current_timestamp

/-- Hexadecimal value of one ASCII byte, following the `hex` crate: decimal
digits and both letter cases are accepted. -/
def hexDigit? (b : Nat) : Option Nat :=
  if 48 ≤ b ∧ b ≤ 57 then some (b - 48)
  else if 65 ≤ b ∧ b ≤ 70 then some (b - 55)
  else if 97 ≤ b ∧ b ≤ 102 then some (b - 87)
  else none

/-- Decoder of the external `hex` crate (`hex::decode`): fails on odd length
or on any non-hex byte, otherwise turns each byte pair into one byte. -/
def hexDecode : List Nat → Option (List Nat)
  | [] => some []
  | [_] => none
  | hi :: lo :: rest =>
    match hexDigit? hi, hexDigit? lo, hexDecode rest with
    | some h, some l, some tl => some ((h * 16 + l) :: tl)
    | _, _, _ => none

/-- Insertion step of `sortBytes`. -/
def insertByte (a : Nat) : List Nat → List Nat
  | [] => [a]
  | b :: l => if a ≤ b then a :: b :: l else b :: insertByte a l

/-- Ascending byte sort, the embedding of `Vec::<u8>::sort_unstable`
(stability is irrelevant on bytes). -/
def sortBytes : List Nat → List Nat
  | [] => []
  | a :: l => insertByte a (sortBytes l)

/-- Little-endian value of a byte string, as used by RFC 8032 to read the
scalar `S` out of the second half of an Ed25519 signature. -/
def littleEndianNat (l : List Nat) : Nat :=
  l.foldr (fun b acc => b + 256 * acc) 0

/-- Order `L` of the Ed25519 base point group,
`2^252 + 27742317777372353535851937790883648493` (RFC 8032 §5.1). -/
def ed25519GroupOrder : Nat := 2 ^ 252 + 27742317777372353535851937790883648493

/-- Modelled from the spec: RFC 8032 §5.1.7 ("Ed25519 verification
(RFC 8032: `[s]B = R + [h]A`)", spec §4.2) first rejects any signature whose
scalar `S` — the little-endian value of bytes 32..64 — is not in `[0, L)`.
Being in that range is therefore a necessary condition for a 64-byte string
to be a cryptographically valid Ed25519 signature under any key and message.
The curve equation itself is not modelled; this necessary condition is all
the claims need. -/
def rfc8032ScalarInRange (signature : List Nat) : Prop :=
  littleEndianNat (signature.drop 32) < ed25519GroupOrder

instance (signature : List Nat) : Decidable (rfc8032ScalarInRange signature) := by
  unfold rfc8032ScalarInRange; infer_instance

/-- Structure `DataIntegrityProof` of `proof.rs` (all fields are Rust
strings, kept as UTF-8 byte lists because the decoders below work on
bytes). -/
structure DataIntegrityProof where
  proof_type : List Nat
  cryptosuite : List Nat
  created : List Nat
  verification_method : List Nat
  proof_purpose : List Nat
  proof_value : List Nat
  challenge : Option (List Nat)
  domain : Option (List Nat)
  deriving DecidableEq, Repr

namespace ProofSuite

/-- Function `ProofSuite::decode_multibase_key` (proof.rs 597-628): requires
the leading byte `'z'` (122); then, for a 64-character payload that hex-decodes
to 32 bytes, returns those bytes; any other payload falls back to the first 32
payload bytes zero-padded to exactly 32. -/
def decode_multibase_key (multibase_key : List Nat) : Except VErr (List Nat) :=
  if multibase_key.head? = some 122 then
    let key_data := multibase_key.tail
    let hexCase : Option (List Nat) :=
      if key_data.length = 64 then
        match hexDecode key_data with
        | some decoded => if decoded.length = 32 then some decoded else none
        | none => none
      else none
    match hexCase with
    | some decoded => .ok decoded
    | none => .ok (key_data.take 32 ++ List.replicate (32 - key_data.length) 0)
  else .error .InvalidKey

/-- Function `ProofSuite::decode_proof_value` (proof.rs 630-675): requires the
leading byte `'z'`; a 64-character hex payload is decoded to 32 bytes and
zero-padded to 64, a 128-character hex payload is decoded to 64 bytes, and
anything else falls back to the first 64 payload bytes zero-padded to exactly
64. -/
def decode_proof_value (proof_value : List Nat) : Except VErr (List Nat) :=
  if proof_value.head? = some 122 then
    let value_data := proof_value.tail
    let hexCase64 : Option (List Nat) :=
      if value_data.length = 64 then
        match hexDecode value_data with
        | some decoded =>
          if decoded.length = 32 then some (decoded ++ List.replicate 32 0)
          else none
        | none => none
      else none
    match hexCase64 with
    | some signature => .ok signature
    | none =>
      let hexCase128 : Option (List Nat) :=
        if value_data.length = 128 then
          match hexDecode value_data with
          | some decoded => if decoded.length = 64 then some decoded else none
          | none => none
        else none
      match hexCase128 with
      | some signature => .ok signature
      | none =>
        .ok (value_data.take 64 ++ List.replicate (64 - value_data.length) 0)
  else .error .InvalidKey

/-- Function `ProofSuite::rdf_canonicalize_message` (proof.rs 445-469): the
prefix bytes of `"eddsa-rdfc-2022:"` followed by the 32 hash bytes of the
message, then the whole buffer is byte-sorted (`sort_unstable`).  The source
wraps the result in `Ok`; it cannot fail, so the embedding is pure. -/
def rdf_canonicalize_message (hash : List Nat → List Nat)
    (message : List Nat) : List Nat :=
  sortBytes (strBytes ("eddsa-rdfc-2022:") ++ hash message)

/-- Function `ProofSuite::verify_eddsa_rfc8032` (proof.rs 473-595).  After
splitting the signature into `R`/`S` halves and hashing the message, the only
decision made is the non-zero sanity check of each half: the challenge hash
`Hash(R || A || M)` is computed into `_challenge_bytes` but — development
mode — never compared against anything, and the function then returns
`Ok(true)` (`let is_valid = true;`). -/
def verify_eddsa_rfc8032 (hash : List Nat → List Nat) (message : List Nat)
    (signature : List Nat) (public_key : List Nat) : Except VErr Bool :=
  let signature_r := signature.take 32
  let signature_s := signature.drop 32
  let hashed_message := hash message
  let r_nonzero := signature_r.any (fun b => b != 0)
  let s_nonzero := signature_s.any (fun b => b != 0)
  if !r_nonzero || !s_nonzero then .ok false
  else
    let challenge_input := signature_r ++ public_key ++ hashed_message
    let _challenge_bytes := hash challenge_input
    .ok true

/-- Function `ProofSuite::verify_ed25519_signature_solana` (proof.rs 380-440):
length gates returning `Ok(false)`, then RDF canonicalization, then
`verify_eddsa_rfc8032`.  The `try_into` conversions cannot fail after the
length gates and are omitted. -/
def verify_ed25519_signature_solana (hash : List Nat → List Nat)
    (message signature public_key : List Nat) : Except VErr Bool :=
  if signature.length ≠ 64 then .ok false
  else if public_key.length ≠ 32 then .ok false
  else
    let canonicalized_message := rdf_canonicalize_message hash message
    verify_eddsa_rfc8032 hash canonicalized_message signature public_key

/-- Function `ProofSuite::verify_proof` (proof.rs 306-373): format gates on
`proof_type` and `cryptosuite` returning `Ok(false)`, then key decoding, the
recreated signature input (credential bytes || created || verification_method
|| proof_purpose), signature decoding, and Ed25519 verification.  The logging
slice `&public_key_multibase[..20]` of the source is omitted with the other
`msg!` calls; theorems quantifying over keys therefore restrict to inputs of
at least 20 ASCII bytes, on which that slice cannot panic. -/
def verify_proof (hash : List Nat → List Nat) (credential_json : List Nat)
    (proof : DataIntegrityProof) (public_key_multibase : List Nat) :
    Except VErr Bool :=
  if proof.proof_type ≠ strBytes ("DataIntegrityProof") then .ok false
  else if proof.cryptosuite ≠ strBytes ("eddsa-rdfc-2022") then .ok false
  else do
    let public_key ← decode_multibase_key public_key_multibase
    let signature_input := credential_json ++ proof.created ++
      proof.verification_method ++ proof.proof_purpose
    let signature_bytes ← decode_proof_value proof.proof_value
    verify_ed25519_signature_solana hash signature_input signature_bytes
      public_key

end ProofSuite

/-- Concrete instance of the external hash oracle, used only to state closed
evaluations of the embedded verifier; `ProofSuite.verify_proof_hash_oblivious`
proves the verification outcome identical for every oracle, so nothing proved
below depends on this choice. -/
def constHash32 : List Nat → List Nat := fun _ => List.replicate 32 0

/-- Structure `JwtImage` of `formats/jwt/mod.rs`. -/
structure JwtImage where
  id : String
  image_type : String
  caption : Option String
  deriving DecidableEq, Repr

/-- Structure `JwtCriteria` of `formats/jwt/mod.rs`. -/
structure JwtCriteria where
  narrative : String
  id : Option String
  deriving DecidableEq, Repr

/-- Structure `JwtAlignment` of `formats/jwt/mod.rs`. -/
structure JwtAlignment where
  target_id : Option String
  target_name : Option String
  target_framework : Option String
  target_code : Option String
  deriving DecidableEq, Repr

/-- Structure `JwtAchievement` of `formats/jwt/mod.rs`. -/
structure JwtAchievement where
  id : String
  achievement_type : List String
  name : String
  description : String
  criteria : JwtCriteria
  image : Option JwtImage
  alignment : Option (List JwtAlignment)
  tags : Option (List String)
  deriving DecidableEq, Repr

/-- Structure `JwtIssuer` as consumed by `formats/jwt/builder.rs`
(`convert_issuer`) and `formats/jwt/verifier.rs` (`vc.issuer.id`,
`vc.issuer.name`).  Modelled from the spec: its declaration is absent from the
snapshot's `formats/jwt/mod.rs`; the fields follow §4.5 of the spec
(`issuer{id,type,name,...}`) and the builder's construction site. -/
structure JwtIssuer where
  id : String
  issuer_type : String
  name : String
  description : Option String
  image : Option String
  url : Option String
  email : Option String
  deriving DecidableEq, Repr

/-- Structure `JwtCredentialSubject` of `formats/jwt/mod.rs`.  The `id` field
is modelled from the spec (§4.5 invariant `sub == vc.credentialSubject.id`):
the snapshot's declaration omits it although the verifier reads it.  The
`results`/`source` optional fields, never read by the embedded functions, are
left out of the model. -/
structure JwtCredentialSubject where
  id : String
  subject_type : List String
  achievement : JwtAchievement
  deriving DecidableEq, Repr

/-- Structure `JwtVerifiableCredential` of `formats/jwt/mod.rs`.  The `id` and
`issuer` fields are modelled from the spec (§4.5 invariants
`jti == vc.id`, `iss == vc.issuer.id`): the snapshot's declaration omits them
although the builder writes and the verifier reads them.  Optional
evidence/status/terms fields, never read by the embedded functions, are left
out of the model. -/
structure JwtVerifiableCredential where
  context : List String
  id : String
  credential_type : List String
  issuer : JwtIssuer
  credential_subject : JwtCredentialSubject
  name : Option String
  description : Option String
  deriving DecidableEq, Repr

/-- Structure `JwtPayload` of `formats/jwt/mod.rs`.  Timestamps are `i64`
Unix seconds, kept as `Int`.  The serde-flattened `additional_claims` map,
never read by the verifier, is left out of the model. -/
structure JwtPayload where
  iss : String
  sub : String
  iat : Int
  jti : String
  exp : Option Int
  nbf : Option Int
  aud : Option String
  vc : JwtVerifiableCredential
  deriving DecidableEq, Repr

/-- Function `JwtVerifier::validate_jwt_claims` (formats/jwt/verifier.rs
88-135), with the wall clock of `get_current_timestamp` (`SystemTime::now`)
passed in as the explicit `current_time` oracle value.  The check order of
the source is kept: the three non-emptiness gates, then `nbf`, then `exp`,
then the three `ClaimMismatch` equalities `iss == vc.issuer.id`,
`sub == vc.credentialSubject.id`, `jti == vc.id`. -/
def validate_jwt_claims (payload : JwtPayload) (current_time : Int) :
    Except VErr Unit :=
  if payload.iss = "" then .error .MissingRequiredField
  else if payload.sub = "" then .error .MissingRequiredField
  else if payload.jti = "" then .error .MissingRequiredField
  else if (match payload.nbf with
           | some nbf => decide (current_time < nbf)
           | none => false) then .error .CredentialNotYetValid
  else if (match payload.exp with
           | some exp => decide (current_time > exp)
           | none => false) then .error .CredentialExpired
  else if payload.iss ≠ payload.vc.issuer.id then .error .ClaimMismatch
  else if payload.sub ≠ payload.vc.credential_subject.id then
    .error .ClaimMismatch
  else if payload.jti ≠ payload.vc.id then .error .ClaimMismatch
  else .ok ()

/-- Round-to-nearest with ties-to-even of the rational `num / den` to an
integer (`den > 0`). -/
def rneInt (num den : Nat) : Nat :=
  let q := num / den
  let r := num % den
  if 2 * r < den then q
  else if den < 2 * r then q + 1
  else if q % 2 = 0 then q else q + 1

/-- Fuel-driven floor of the base-2 logarithm; structural recursion so that
the kernel can evaluate it (the library `Nat.log2` is defined by well-founded
recursion and does not reduce). -/
def log2p : Nat → Nat → Nat
  | 0, _ => 0
  | fuel + 1, n => if 2 ≤ n then log2p fuel (n / 2) + 1 else 0

/-- Floor of `log₂ n` for `n ≥ 1` (and `0` at `0`). -/
def natLog2 (n : Nat) : Nat := log2p n n

/-- IEEE-754 binary64 round-to-nearest-even of the non-negative rational
`num / den` (`den > 0`), returned as an exact dyadic pair `(p, q)` of value
`p / q`.  The exponent `e = ⌊log₂ (num/den)⌋` is `a - b - c` with
`a = ⌊log₂ num⌋`, `b = ⌊log₂ den⌋` and `c ∈ {0,1}`; the 53-bit significand is
the value scaled by `2^(52-e)` and rounded to nearest-even.  This models the
Rust `as f64` conversions and the correctly rounded `/` and `*` for values in
the normal finite range, which covers every value the embedded
`calculate_compliance_score` produces. -/
def roundF64N (num den : Nat) : Nat × Nat :=
  if num = 0 then (0, 1)
  else
    let a := natLog2 num
    let b := natLog2 den
    let c := if den * 2 ^ a ≤ num * 2 ^ b then 0 else 1
    if a ≤ 52 + b + c then
      (rneInt (num * 2 ^ (52 + b + c - a)) den, 2 ^ (52 + b + c - a))
    else
      (rneInt num (den * 2 ^ (a - b - c - 52)) * 2 ^ (a - b - c - 52), 1)

/-- Rust `usize as f64` (exact for values below `2^53`, correctly rounded
above). -/
def f64ofNat (n : Nat) : Nat × Nat := roundF64N n 1

/-- Correctly rounded binary64 division of two dyadic values. -/
def f64div (x y : Nat × Nat) : Nat × Nat := roundF64N (x.1 * y.2) (x.2 * y.1)

/-- Correctly rounded binary64 multiplication of two dyadic values. -/
def f64mul (x y : Nat × Nat) : Nat × Nat := roundF64N (x.1 * y.1) (x.2 * y.2)

/-- Rust `f64 as u8` on a non-negative finite value: truncation toward zero,
saturating at 255. -/
def f64toU8 (x : Nat × Nat) : Nat := min 255 (x.1 / x.2)

/-- Structure `ValidationReport` of `compliance_validator.rs` (469-478). -/
structure ValidationReport where
  errors : List String
  warnings : List String
  successes : List String
  info : List String
  compliance_score : Nat
  is_valid : Bool
  deriving DecidableEq, Repr

/-- Function `ValidationReport::new` (compliance_validator.rs 481-490). -/
def ValidationReport.new : ValidationReport :=
  { errors := [], warnings := [], successes := [], info := []
    compliance_score := 0, is_valid := false }

/-- Numeric core of `calculate_compliance_score`: the floating-point
expression `((total_score as f64 / max_score as f64) * 100.0) as u8` of
compliance_validator.rs line 525, evaluated in exact binary64
semantics (`100.0` is the exact double 100). -/
def complianceScoreF64 (total_score max_score : Nat) : Nat :=
  f64toU8 (f64mul (f64div (f64ofNat total_score) (f64ofNat max_score))
    (f64ofNat 100))

/-- Function `ValidationReport::calculate_compliance_score`
(compliance_validator.rs 508-527).  When no check was recorded the score is
zeroed and the function returns early, leaving `is_valid` untouched;
otherwise the score is the binary64 computation above and `is_valid` becomes
`errors.is_empty()`. -/
def ValidationReport.calculate_compliance_score (r : ValidationReport) :
    ValidationReport :=
  let total_checks := r.errors.length + r.warnings.length + r.successes.length
  if total_checks = 0 then { r with compliance_score := 0 }
  else
    let total_score := r.successes.length * 10 + r.warnings.length * 5 +
      r.errors.length * 0
    let max_score := total_checks * 10
    { r with compliance_score := complianceScoreF64 total_score max_score
             is_valid := r.errors.isEmpty }

/-- Structure `ServiceEndpoint` of `did/mod.rs` (strings as byte lists, as in
the resolver). -/
structure ServiceEndpoint where
  id : List Nat
  service_type : List Nat
  service_endpoint : List Nat
  deriving DecidableEq, Repr

/-- Structure `JsonWebKey` of `did/mod.rs`. -/
structure JsonWebKey where
  kty : List Nat
  crv : List Nat
  x : List Nat
  key_use : Option (List Nat)
  key_ops : List (List Nat)
  deriving DecidableEq, Repr

/-- Structure `VerificationMethod` of `did/mod.rs`. -/
structure VerificationMethod where
  id : List Nat
  key_type : List Nat
  controller : List Nat
  public_key_multibase : Option (List Nat)
  public_key_jwk : Option JsonWebKey
  deriving DecidableEq, Repr

/-- Structure `DidDocument` of `did/mod.rs`. -/
structure DidDocument where
  id : List Nat
  context : List (List Nat)
  verification_method : List VerificationMethod
  authentication : List (List Nat)
  assertion_method : List (List Nat)
  key_agreement : List (List Nat)
  service : List ServiceEndpoint
  deriving DecidableEq, Repr

namespace DidResolver

/-- Function `DidResolver::decode_multibase_key` (did/resolver.rs 75-84): a
placeholder that returns the constant 32-byte zero vector whenever the key
starts with `'z'` (byte 122), and `UnsupportedKeyEncoding` otherwise. -/
def decode_multibase_key (multibase_key : List Nat) : Except VErr (List Nat) :=
  if multibase_key.head? = some 122 then .ok (List.replicate 32 0)
  else .error .UnsupportedKeyEncoding

/-- Function `DidResolver::decode_jwk_key` (did/resolver.rs 87-95): the same
placeholder zero vector for an `OKP`/`Ed25519` JWK. -/
def decode_jwk_key (jwk : JsonWebKey) : Except VErr (List Nat) :=
  if jwk.kty = strBytes ("OKP") ∧ jwk.crv = strBytes ("Ed25519") then
    .ok (List.replicate 32 0)
  else .error .UnsupportedKeyType

/-- Function `DidResolver::extract_public_key` (did/resolver.rs 62-72):
`publicKeyMultibase` preferred, `publicKeyJwk` fallback, otherwise
`NoPublicKeyFound`. -/
def extract_public_key (vm : VerificationMethod) : Except VErr (List Nat) :=
  match vm.public_key_multibase with
  | some public_key_multibase => decode_multibase_key public_key_multibase
  | none =>
    match vm.public_key_jwk with
    | some public_key_jwk => decode_jwk_key public_key_jwk
    | none => .error .NoPublicKeyFound

/-- Function `DidResolver::resolve_verification_method` (did/resolver.rs
40-59) after the `self.resolve(did)` step: the resolved `DidDocument` is the
explicit `did_doc` argument (the resolution dispatch of `DidUrl::parse` plus
the method resolvers of `did/methods.rs` depends on the external `bs58` and
`Pubkey` parsing crates; the claims concern the extraction from the resolved
document).  The fragment requirement, the `did#fragment` id match over the
document's verification methods (first match, as the source's linear scan)
and the extraction are embedded as written. -/
def resolve_verification_method_in (did_doc : DidDocument) (did : List Nat)
    (fragment : Option (List Nat)) : Except VErr (List Nat) :=
  match fragment with
  | none => .error .MissingKeyFragment
  | some fragment =>
    let vm_id := did ++ strBytes ("#") ++ fragment
    match did_doc.verification_method.find? (fun vm => vm.id == vm_id) with
    | some vm => extract_public_key vm
    | none => .error .VerificationMethodNotFound

end DidResolver

/-- Reading of the status bit of credential `index` directly from the bit
array (byte `index / 8`, bit `index % 8`); proof infrastructure used to state
the bit-level lemmas below. -/
def RevocationList.bitTest (s : RevocationList) (index : Nat) : Bool :=
  (s.status_bits.getD (index / 8) 0).testBit (index % 8)

/-- Concrete credential message used by the closed evaluations below. -/
def cCred : List Nat := strBytes ("credential")

/-- Concrete well-formed multibase public key: `'z'` followed by 64 hex
characters `'1'`, decoding to 32 bytes `0x11`. -/
def cKey : List Nat := 122 :: List.replicate 64 49

/-- Concrete proof whose `proofValue` is `'z'` followed by 128 hex characters
`'f'`: it hex-decodes to the 64-byte signature `0xff…ff`, whose scalar `S`
(little-endian of the second half) is `2^256 - 1 ≥ L`, so it is not a valid
Ed25519 signature under any key or message (RFC 8032 §5.1.7). -/
def c1proof : DataIntegrityProof :=
  { proof_type := strBytes ("DataIntegrityProof")
    cryptosuite := strBytes ("eddsa-rdfc-2022")
    created := strBytes ("2024-01-01T00:00:00Z")
    verification_method := strBytes ("did:example:issuer#key-1")
    proof_purpose := strBytes ("assertionMethod")
    proof_value := 122 :: List.replicate 128 102
    challenge := none
    domain := none }

/-- The 64-byte signature `0xff…ff` that `c1proof.proof_value` decodes to. -/
def c1sig : List Nat := List.replicate 64 255

/-- Concrete 24-character public-key string with no multibase `'z'` prefix
(all `'a'`; long enough that the source's logging slice `[..20]` is
well-defined). -/
def c4key : List Nat := List.replicate 24 97

/-- Concrete proof whose `proofValue` is `'z'` followed by 126 hex characters
`'a'` — i.e. an encoded signature of 63 bytes (`0xaa` × 63). -/
def c5proof : DataIntegrityProof :=
  { proof_type := strBytes ("DataIntegrityProof")
    cryptosuite := strBytes ("eddsa-rdfc-2022")
    created := strBytes ("2024-01-01T00:00:00Z")
    verification_method := strBytes ("did:example:issuer#key-1")
    proof_purpose := strBytes ("assertionMethod")
    proof_value := 122 :: List.replicate 126 97
    challenge := none
    domain := none }

/-- Concrete achievement for the JWT payloads below. -/
def cAch : JwtAchievement :=
  { id := "https://example.com/achievements/1"
    achievement_type := ["Achievement"]
    name := "Test Achievement"
    description := "desc"
    criteria := { narrative := "criteria", id := none }
    image := none
    alignment := none
    tags := none }

/-- Concrete issuer profile with id `did:sol:XYZ`. -/
def cIss : JwtIssuer :=
  { id := "did:sol:XYZ"
    issuer_type := "Profile"
    name := "Issuer"
    description := none
    image := none
    url := none
    email := none }

/-- Concrete JWT payload: `iss = "did:sol:ABC"` while
`vc.issuer.id = "did:sol:XYZ"` (the mismatch of C6), with an `exp` of 0 that
lies in the past for any positive clock value. -/
def c6payload : JwtPayload :=
  { iss := "did:sol:ABC"
    sub := "did:sol:S"
    iat := 0
    jti := "urn:uuid:1"
    exp := some 0
    nbf := none
    aud := none
    vc := { context := ["https://www.w3.org/ns/credentials/v2"]
            id := "urn:uuid:1"
            credential_type := ["VerifiableCredential"]
            issuer := cIss
            credential_subject := { id := "did:sol:S"
                                    subject_type := ["AchievementSubject"]
                                    achievement := cAch }
            name := none
            description := none } }

/-- Concrete validation report with 35 errors, 1 warning and 14 successes:
the exact integer score would be `100 * (14*10 + 1*5) / (50*10) = 29`, but the
double-precision evaluation of the source yields 28. -/
def c8report : ValidationReport :=
  { errors := List.replicate 35 "e"
    warnings := List.replicate 1 "w"
    successes := List.replicate 14 "s"
    info := []
    compliance_score := 0
    is_valid := false }

/-- Concrete verification method whose `publicKeyMultibase` starts with `'z'`
and carries non-zero key material (the bytes of
`"zDEADBEEFDEADBEEFDEADBEEFDEADBEEF"`). -/
def c9vm : VerificationMethod :=
  { id := strBytes ("did:key:zX#zX")
    key_type := strBytes ("Ed25519VerificationKey2020")
    controller := strBytes ("did:key:zX")
    public_key_multibase := some (strBytes ("zDEADBEEFDEADBEEFDEADBEEFDEADBEEF"))
    public_key_jwk := none }

/-- Concrete DID document holding `c9vm`. -/
def c9doc : DidDocument :=
  { id := strBytes ("did:key:zX")
    context := [strBytes ("https://www.w3.org/ns/did/v1")]
    verification_method := [c9vm]
    authentication := [strBytes ("did:key:zX#zX")]
    assertion_method := [strBytes ("did:key:zX#zX")]
    key_agreement := []
    service := [] }

/-- Concrete revocation list already filled to capacity:
`capacity = 1` and `current_size = 1`. -/
def c10full : RevocationList :=
  { authority := 0
    list_id := "L"
    capacity := 1
    current_size := 1
    status_bits := [0]
    metadata := { name := "n", description := "d", status_list_url := "u"
                  version := "1.0" }
    created_at := ""
    updated_at := "" }

/-- State of `c10full` after one more `add_credential`: `current_size = 2`
strictly exceeds the capacity 1. -/
def c10after : RevocationList := { c10full with current_size := 2 }

/-- Revocation list produced by `initialize_revocation_list` with
capacity 8. -/
def c7list : RevocationList :=
  { authority := 0
    list_id := ""
    capacity := 8
    current_size := 0
    status_bits := List.replicate 1 0
    metadata := { name := "n", description := "d", status_list_url := ""
                  version := "1.0" }
    created_at := ""
    updated_at := "" }

/-- Revocation list freshly produced by `RevocationList::new` with
capacity 8 and empty metadata strings. -/
def c2list : RevocationList :=
  { authority := 0
    list_id := ""
    capacity := 8
    current_size := 0
    status_bits := List.replicate 1 0
    metadata := { name := "", description := "", status_list_url := ""
                  version := "1.0" }
    created_at := ""
    updated_at := "" }

/-- Concrete proof carrying an unexpected `proof_type`. -/
def c4wrongType : DataIntegrityProof :=
  { c1proof with proof_type := strBytes ("Ed25519Signature2020") }

/-- Concrete batch operation revoking indices 3 and 5 while reactivating
index 3 — index 3 appears in both lists. -/
def c3op : BatchRevocationOperation :=
  { indices_to_revoke := [3, 5]
    indices_to_reactivate := [3]
    reason := none
    timestamp := "" }

/-- State of `c2list` after `c3op`: bit 5 set, bit 3 cleared again
(`0b00101000 &&& 0b11110111 = 0b00100000 = 32`). -/
def c3after : RevocationList := { c2list with status_bits := [32] }

set_option maxRecDepth 400000

theorem getD_set_self (l : List Nat) (i v : Nat) (h : i < l.length) :
    (l.set i v).getD i 0 = v := by
  induction l generalizing i with
  | nil => simp at h
  | cons a t ih =>
    cases i with
    | zero => rfl
    | succ n =>
      simpa using ih n (by simpa using h)

theorem getD_set_ne (l : List Nat) (i j v : Nat) (h : i ≠ j) :
    (l.set i v).getD j 0 = l.getD j 0 := by
  induction l generalizing i j with
  | nil => rfl
  | cons a t ih =>
    cases i with
    | zero =>
      cases j with
      | zero => exact absurd rfl h
      | succ m => rfl
    | succ n =>
      cases j with
      | zero => rfl
      | succ m => simpa using ih n m (by omega)

theorem getD_replicate (n i : Nat) : (List.replicate n (0 : Nat)).getD i 0 = 0 := by
  induction n generalizing i with
  | zero => rfl
  | succ m ih =>
    cases i with
    | zero => rfl
    | succ k => simpa [List.replicate] using ih k

theorem and_shiftLeft_ne_zero (x b : Nat) :
    ((x &&& (1 <<< b)) != 0) = x.testBit b := by
  rw [Nat.shiftLeft_eq, one_mul, Nat.and_two_pow]
  cases h : x.testBit b <;>
    simp [h, bne_iff_ne, (Nat.two_pow_pos b).ne']

theorem testBit_clear_mask (x b j : Nat) (hb : b < 8) (hj : j < 8) :
    ((x &&& (255 ^^^ (1 <<< b))).testBit j) = (x.testBit j && !(decide (b = j))) := by
  have h255 : (255 : Nat) = 2 ^ 8 - 1 := by norm_num
  rw [Nat.testBit_land, Nat.shiftLeft_eq, one_mul, Nat.testBit_xor, h255,
    Nat.testBit_two_pow_sub_one, Nat.testBit_two_pow]
  simp [hj]

theorem div8_lt_ceil (i c : Nat) (h : i < c) : i / 8 < (c + 7) / 8 := by
  rw [show c + 7 = (c - 1) + 8 by omega, Nat.add_div_right _ (by norm_num)]
  exact Nat.lt_succ_of_le (Nat.div_le_div_right (by omega))

theorem revoke_credential_ok (s : RevocationList) (i : Nat) (ts : String)
    (hc : i < s.capacity) (hl : i / 8 < s.status_bits.length) :
    s.revoke_credential i ts = .ok
      { s with status_bits := s.status_bits.set (i / 8)
                 ((s.status_bits.getD (i / 8) 0) ||| (1 <<< (i % 8)))
               updated_at := ts } := by
  unfold RevocationList.revoke_credential
  rw [if_neg (by omega)]
  dsimp only
  rw [if_neg (by omega)]

theorem reactivate_credential_ok (s : RevocationList) (i : Nat) (ts : String)
    (hc : i < s.capacity) (hl : i / 8 < s.status_bits.length) :
    s.reactivate_credential i ts = .ok
      { s with status_bits := s.status_bits.set (i / 8)
                 ((s.status_bits.getD (i / 8) 0) &&& (255 ^^^ (1 <<< (i % 8))))
               updated_at := ts } := by
  unfold RevocationList.reactivate_credential
  rw [if_neg (by omega)]
  dsimp only
  rw [if_neg (by omega)]

theorem is_revoked_eq (s : RevocationList) (i : Nat)
    (hc : i < s.capacity) (hl : i / 8 < s.status_bits.length) :
    s.is_revoked i = .ok (s.bitTest i) := by
  unfold RevocationList.is_revoked
  rw [if_neg (by omega)]
  dsimp only
  rw [if_neg (by omega), RevocationList.bitTest, and_shiftLeft_ne_zero]

/-- C2: on a revocation list freshly constructed by `new` with capacity in
[1, 1_000_000], for every `index < capacity` revoking and then querying the
index answers true, reactivating and then querying answers false, and for
every `index ≥ capacity` each of the three operations fails with
`IndexOutOfBounds`. -/
theorem c2_revocation_bit_roundtrip
    (authority : Nat) (lid : String) (c : Nat) (nm d url ts ts2 : String)
    (s : RevocationList)
    (hnew : RevocationList.new authority lid c nm d url ts = .ok s)
    (h1 : 1 ≤ c) (h2 : c ≤ 1000000) (i : Nat) :
    (i < c →
      ((s.revoke_credential i ts2).bind (fun s' => s'.is_revoked i) = .ok true) ∧
      ((s.reactivate_credential i ts2).bind (fun s' => s'.is_revoked i) = .ok false)) ∧
    (c ≤ i →
      s.revoke_credential i ts2 = .error .IndexOutOfBounds ∧
      s.reactivate_credential i ts2 = .error .IndexOutOfBounds ∧
      s.is_revoked i = .error .IndexOutOfBounds) := by
  have hmod : (c + 7) % U32 = c + 7 := Nat.mod_eq_of_lt (by unfold U32; omega)
  simp only [RevocationList.new, Except.ok.injEq] at hnew
  subst hnew
  simp only [hmod]
  constructor
  · intro hi
    have hlen : i / 8 <
        (List.replicate ((c + 7) / 8) (0 : Nat)).length := by
      simpa using div8_lt_ceil i c hi
    constructor
    · rw [revoke_credential_ok _ _ _ hi hlen]
      simp only [Except.bind]
      rw [is_revoked_eq _ _ (by simpa using hi)
        (by simpa [List.length_set] using hlen)]
      simp only [RevocationList.bitTest]
      rw [getD_set_self _ _ _ (by simpa using hlen), getD_replicate]
      simp [Nat.shiftLeft_eq, Nat.testBit_two_pow_self]
    · rw [reactivate_credential_ok _ _ _ hi hlen]
      simp only [Except.bind]
      rw [is_revoked_eq _ _ (by simpa using hi)
        (by simpa [List.length_set] using hlen)]
      simp only [RevocationList.bitTest]
      rw [getD_set_self _ _ _ (by simpa using hlen), getD_replicate]
      simp [Nat.zero_and, Nat.zero_testBit]
  · intro hi
    refine ⟨?_, ?_, ?_⟩
    · unfold RevocationList.revoke_credential
      rw [if_pos (by simpa using hi)]
    · unfold RevocationList.reactivate_credential
      rw [if_pos (by simpa using hi)]
    · unfold RevocationList.is_revoked
      rw [if_pos (by simpa using hi)]

/-- Witness for C2 at capacity 8, index 3 in-bounds and index 9 out of
bounds. -/
theorem c2_revocation_bit_roundtrip_witness :
    (RevocationList.new 0 "" 8 "" "" "" "" = .ok c2list) ∧
    ((c2list.revoke_credential 3 "").bind (fun s' => s'.is_revoked 3) = .ok true) ∧
    ((c2list.reactivate_credential 3 "").bind (fun s' => s'.is_revoked 3) = .ok false) ∧
    (c2list.is_revoked 9 = .error .IndexOutOfBounds) := by
  have h3 := c2_revocation_bit_roundtrip 0 "" 8 "" "" "" "" "" c2list rfl
    (by norm_num) (by norm_num) 3
  have h9 := c2_revocation_bit_roundtrip 0 "" 8 "" "" "" "" "" c2list rfl
    (by norm_num) (by norm_num) 9
  exact ⟨rfl, (h3.1 (by norm_num)).1, (h3.1 (by norm_num)).2,
    (h9.2 (by norm_num)).2.2⟩

/-- C7: `initialize_revocation_list` rejects capacity 0 and capacity above
1_000_000 with `InvalidCapacity`, and every accepted construction carries a
`status_bits` array of exactly `⌈capacity/8⌉ = (capacity+7)/8` zero bytes and
`current_size = 0`. -/
theorem c7_capacity_validation
    (authority : Nat) (lid : String) (cap : Nat) (nm d url ts : String) :
    ((cap = 0 ∨ cap > 1000000) →
      initialize_revocation_list authority lid cap nm d url ts =
        .error .InvalidCapacity) ∧
    (∀ rl, initialize_revocation_list authority lid cap nm d url ts = .ok rl →
      rl.status_bits = List.replicate ((cap + 7) / 8) 0 ∧
      rl.current_size = 0 ∧ rl.capacity = cap) := by
  constructor
  · intro h
    unfold initialize_revocation_list
    rw [if_pos (by omega)]
  · intro rl h
    unfold initialize_revocation_list at h
    by_cases hc : cap = 0 ∨ cap > 1000000
    · rw [if_pos hc] at h
      exact absurd h (by simp)
    · rw [if_neg hc] at h
      by_cases hn : nm = "" ∨ d = ""
      · rw [if_pos hn] at h
        exact absurd h (by simp)
      · rw [if_neg hn] at h
        have hmod : (cap + 7) % U32 = cap + 7 :=
          Nat.mod_eq_of_lt (by unfold U32; omega)
        simp only [RevocationList.new, Except.ok.injEq] at h
        subst h
        simp [hmod]

/-- Witness for C7: capacity 0 is rejected and capacity 8 yields one zero
byte with size 0. -/
theorem c7_capacity_validation_witness :
    (initialize_revocation_list 0 "" 0 ("n") ("d") "" "" =
      .error .InvalidCapacity) ∧
    (initialize_revocation_list 0 "" 8 ("n") ("d") "" "" = .ok c7list) ∧
    (c7list.status_bits = List.replicate 1 0 ∧ c7list.current_size = 0 ∧
      c7list.capacity = 8) := by
  refine ⟨(c7_capacity_validation 0 "" 0 ("n") ("d") "" "").1 (Or.inl rfl),
    rfl, ?_⟩
  simpa using (c7_capacity_validation 0 "" 8 ("n") ("d") "" "").2 c7list rfl

/-- Shape of `revoke_credential` failures: the only error it can produce is
`IndexOutOfBounds`. -/
theorem revoke_credential_error_shape (s : RevocationList) (i : Nat)
    (ts : String) (e : VErr) (h : s.revoke_credential i ts = .error e) :
    e = .IndexOutOfBounds := by
  unfold RevocationList.revoke_credential at h
  split at h
  · exact (Except.error.injEq _ _ ▸ h).symm ▸ rfl
  · dsimp only at h
    split at h
    · exact (Except.error.injEq _ _ ▸ h).symm ▸ rfl
    · exact absurd h (by simp)

/-- Shape of `reactivate_credential` failures. -/
theorem reactivate_credential_error_shape (s : RevocationList) (i : Nat)
    (ts : String) (e : VErr) (h : s.reactivate_credential i ts = .error e) :
    e = .IndexOutOfBounds := by
  unfold RevocationList.reactivate_credential at h
  split at h
  · exact (Except.error.injEq _ _ ▸ h).symm ▸ rfl
  · dsimp only at h
    split at h
    · exact (Except.error.injEq _ _ ▸ h).symm ▸ rfl
    · exact absurd h (by simp)

/-- Shape of `add_credential` failures. -/
theorem add_credential_error_shape (s : RevocationList) (i : Nat)
    (ts : String) (e : VErr) (h : s.add_credential i ts = .error e) :
    e = .IndexOutOfBounds := by
  unfold RevocationList.add_credential at h
  split at h
  · exact (Except.error.injEq _ _ ▸ h).symm ▸ rfl
  · exact absurd h (by simp)

/-- Shape of `is_revoked` failures. -/
theorem is_revoked_error_shape (s : RevocationList) (i : Nat) (e : VErr)
    (h : s.is_revoked i = .error e) : e = .IndexOutOfBounds := by
  unfold RevocationList.is_revoked at h
  split at h
  · exact (Except.error.injEq _ _ ▸ h).symm ▸ rfl
  · dsimp only at h
    split at h
    · exact (Except.error.injEq _ _ ▸ h).symm ▸ rfl
    · exact absurd h (by simp)

/-- Shape of failures of the revoke loop of `batch_operation`. -/
theorem foldlM_revoke_error_shape (ts : String) (l : List Nat) :
    ∀ (s : RevocationList) (e : VErr),
      l.foldlM (fun st index => st.revoke_credential index ts) s = .error e →
      e = .IndexOutOfBounds := by
  induction l with
  | nil => intro s e h; exact Except.noConfusion h
  | cons a t ih =>
    intro s e h
    rw [List.foldlM_cons] at h
    cases hr : s.revoke_credential a ts with
    | error e' =>
      rw [hr] at h
      have h' : (Except.error e' : Except VErr RevocationList) = .error e := h
      exact ((Except.error.injEq _ _).mp h') ▸
        revoke_credential_error_shape s a ts e' hr
    | ok s1 =>
      rw [hr] at h
      exact ih s1 e h

/-- Shape of failures of the reactivate loop of `batch_operation`. -/
theorem foldlM_reactivate_error_shape (ts : String) (l : List Nat) :
    ∀ (s : RevocationList) (e : VErr),
      l.foldlM (fun st index => st.reactivate_credential index ts) s = .error e →
      e = .IndexOutOfBounds := by
  induction l with
  | nil => intro s e h; exact Except.noConfusion h
  | cons a t ih =>
    intro s e h
    rw [List.foldlM_cons] at h
    cases hr : s.reactivate_credential a ts with
    | error e' =>
      rw [hr] at h
      have h' : (Except.error e' : Except VErr RevocationList) = .error e := h
      exact ((Except.error.injEq _ _).mp h') ▸
        reactivate_credential_error_shape s a ts e' hr
    | ok s1 =>
      rw [hr] at h
      exact ih s1 e h

/-- Shape of `batch_operation` failures: the only error it can produce is
`IndexOutOfBounds`. -/
theorem batch_operation_error_shape (s : RevocationList)
    (op : BatchRevocationOperation) (e : VErr)
    (h : s.batch_operation op = .error e) : e = .IndexOutOfBounds := by
  unfold RevocationList.batch_operation at h
  cases hr : op.indices_to_revoke.foldlM
      (fun st index => st.revoke_credential index op.timestamp) s with
  | error e' =>
    rw [hr] at h
    have h' : (Except.error e' : Except VErr RevocationList) = .error e := h
    exact ((Except.error.injEq _ _).mp h') ▸
      foldlM_revoke_error_shape op.timestamp op.indices_to_revoke s e' hr
  | ok s1 =>
    rw [hr] at h
    have h2 : (op.indices_to_reactivate.foldlM
        (fun st index => st.reactivate_credential index op.timestamp) s1 >>=
        fun s2 => pure s2) = (Except.error e : Except VErr RevocationList) := h
    cases hr2 : op.indices_to_reactivate.foldlM
        (fun st index => st.reactivate_credential index op.timestamp) s1 with
    | error e' =>
      rw [hr2] at h2
      have h' : (Except.error e' : Except VErr RevocationList) = .error e := h2
      exact ((Except.error.injEq _ _).mp h') ▸
        foldlM_reactivate_error_shape op.timestamp
          op.indices_to_reactivate s1 e' hr2
    | ok s2 =>
      rw [hr2] at h2
      exact Except.noConfusion h2

/-- Closed form of `verify_ed25519_signature_solana`: its answer is exactly
the conjunction of the two length gates and the two non-zero-half sanity
checks — it does not depend on the message, on the hash oracle, or on any
relation between signature, message and key. -/
theorem ed25519_solana_eq (hash : List Nat → List Nat)
    (message signature public_key : List Nat) :
    ProofSuite.verify_ed25519_signature_solana hash message signature
      public_key =
      .ok (decide (signature.length = 64) && decide (public_key.length = 32) &&
        (signature.take 32).any (fun b => b != 0) &&
        (signature.drop 32).any (fun b => b != 0)) := by
  unfold ProofSuite.verify_ed25519_signature_solana
    ProofSuite.verify_eddsa_rfc8032
  by_cases h1 : signature.length = 64
  · rw [if_neg (by simpa using h1)]
    by_cases h2 : public_key.length = 32
    · rw [if_neg (by simpa using h2)]
      dsimp only
      cases h3 : (signature.take 32).any (fun b => b != 0) <;>
        cases h4 : (signature.drop 32).any (fun b => b != 0) <;>
          simp [h1, h2, h3, h4]
    · rw [if_pos (by simpa using h2)]
      simp [h2]
  · rw [if_pos (by simpa using h1)]
    simp [h1]

/-- Closed form of `verify_proof`: format gates, then the two decoders, then
the closed form of the Ed25519 step.  The right-hand side never mentions the
hash oracle. -/
theorem verify_proof_eq (hash : List Nat → List Nat) (credential_json : List Nat)
    (proof : DataIntegrityProof) (public_key_multibase : List Nat) :
    ProofSuite.verify_proof hash credential_json proof public_key_multibase =
      if proof.proof_type ≠ strBytes ("DataIntegrityProof") then .ok false
      else if proof.cryptosuite ≠ strBytes ("eddsa-rdfc-2022") then .ok false
      else
        match ProofSuite.decode_multibase_key public_key_multibase with
        | .error e => .error e
        | .ok public_key =>
          match ProofSuite.decode_proof_value proof.proof_value with
          | .error e => .error e
          | .ok signature_bytes =>
            .ok (decide (signature_bytes.length = 64) &&
              decide (public_key.length = 32) &&
              (signature_bytes.take 32).any (fun b => b != 0) &&
              (signature_bytes.drop 32).any (fun b => b != 0)) := by
  unfold ProofSuite.verify_proof
  by_cases ht : proof.proof_type = strBytes ("DataIntegrityProof")
  · simp only [if_neg (show ¬ proof.proof_type ≠ strBytes ("DataIntegrityProof")
      by simpa using ht)]
    by_cases hc : proof.cryptosuite = strBytes ("eddsa-rdfc-2022")
    · simp only [if_neg (show ¬ proof.cryptosuite ≠ strBytes ("eddsa-rdfc-2022")
        by simpa using hc)]
      cases hk : ProofSuite.decode_multibase_key public_key_multibase with
      | error e => rfl
      | ok public_key =>
        cases hv : ProofSuite.decode_proof_value proof.proof_value with
        | error e => rfl
        | ok signature_bytes =>
          show ProofSuite.verify_ed25519_signature_solana hash _ _ _ = _
          rw [ed25519_solana_eq]
    · simp only [if_pos (show proof.cryptosuite ≠ strBytes ("eddsa-rdfc-2022")
        from hc)]
  · simp only [if_pos (show proof.proof_type ≠ strBytes ("DataIntegrityProof")
      from ht)]

/-- The outcome of `verify_proof` is the same for every hash oracle: the
development-mode verifier never uses the hash value it computes. -/
theorem verify_proof_hash_oblivious (hash1 hash2 : List Nat → List Nat)
    (credential_json : List Nat) (proof : DataIntegrityProof)
    (public_key_multibase : List Nat) :
    ProofSuite.verify_proof hash1 credential_json proof public_key_multibase =
    ProofSuite.verify_proof hash2 credential_json proof public_key_multibase := by
  rw [verify_proof_eq, verify_proof_eq]

/-- Every successful `decode_multibase_key` yields exactly 32 bytes. -/
theorem decode_multibase_key_ok_length (k pub : List Nat)
    (h : ProofSuite.decode_multibase_key k = .ok pub) : pub.length = 32 := by
  unfold ProofSuite.decode_multibase_key at h
  split at h
  · dsimp only at h
    split at h
    · rename_i heq
      rw [Except.ok.injEq] at h
      subst h
      split at heq
      · split at heq
        · split at heq
          · rename_i hlen
            rw [Option.some.injEq] at heq
            subst heq
            exact hlen
          · exact Option.noConfusion heq
        · exact Option.noConfusion heq
      · exact Option.noConfusion heq
    · rw [Except.ok.injEq] at h
      subst h
      simp only [List.length_append, List.length_take, List.length_replicate]
      omega
  · exact Except.noConfusion h

/-- Every successful `decode_proof_value` yields exactly 64 bytes: the
32-byte hex case is zero-padded, the 64-byte hex case is returned as is, and
the fallback is zero-padded to 64 — no other byte count can come out. -/
theorem decode_proof_value_ok_length (v sig : List Nat)
    (h : ProofSuite.decode_proof_value v = .ok sig) : sig.length = 64 := by
  unfold ProofSuite.decode_proof_value at h
  split at h
  · dsimp only at h
    split at h
    · rename_i heq
      rw [Except.ok.injEq] at h
      subst h
      split at heq
      · split at heq
        · split at heq
          · rename_i hlen
            rw [Option.some.injEq] at heq
            subst heq
            simp [hlen]
          · exact Option.noConfusion heq
        · exact Option.noConfusion heq
      · exact Option.noConfusion heq
    · split at h
      · rename_i heq
        rw [Except.ok.injEq] at h
        subst h
        split at heq
        · split at heq
          · split at heq
            · rename_i hlen
              rw [Option.some.injEq] at heq
              subst heq
              exact hlen
            · exact Option.noConfusion heq
          · exact Option.noConfusion heq
        · exact Option.noConfusion heq
      · rw [Except.ok.injEq] at h
        subst h
        simp only [List.length_append, List.length_take, List.length_replicate]
        omega
  · exact Except.noConfusion h

/-- A key value with the `'z'` lead byte always decodes successfully. -/
theorem decode_multibase_key_z_ok (k : List Nat) (hz : k.head? = some 122) :
    ∃ pub, ProofSuite.decode_multibase_key k = .ok pub := by
  unfold ProofSuite.decode_multibase_key
  rw [if_pos hz]
  dsimp only
  split
  · exact ⟨_, rfl⟩
  · exact ⟨_, rfl⟩

/-- A key value without the `'z'` lead byte raises `InvalidKey`. -/
theorem decode_multibase_key_not_z (k : List Nat) (hz : k.head? ≠ some 122) :
    ProofSuite.decode_multibase_key k = .error .InvalidKey := by
  unfold ProofSuite.decode_multibase_key
  rw [if_neg hz]

/-- A proof value without the `'z'` lead byte raises `InvalidKey`. -/
theorem decode_proof_value_not_z (v : List Nat) (hz : v.head? ≠ some 122) :
    ProofSuite.decode_proof_value v = .error .InvalidKey := by
  unfold ProofSuite.decode_proof_value
  rw [if_neg hz]

/-- C1 (code bug): the development-mode verifier accepts a signature that no
RFC 8032 verifier can accept.  The proof value `'z' + 'f'×128` decodes to the
64-byte signature `0xff…ff`, whose scalar `S` is `2^256 - 1`, far above the
group order `L` — RFC 8032 §5.1.7 rejects any such signature outright under
every key and message — yet `verify_proof` answers `Ok(true)` for every hash
oracle: `verify_eddsa_rfc8032` computes its challenge hash and then ignores
it (`let is_valid = true`, proof.rs 585). -/
theorem c1_development_mode_accepts_invalid_signature :
    ProofSuite.decode_proof_value c1proof.proof_value = .ok c1sig ∧
    ¬ rfc8032ScalarInRange c1sig ∧
    ∀ hash : List Nat → List Nat,
      ProofSuite.verify_proof hash cCred c1proof cKey = .ok true := by
  refine ⟨by rfl, by decide, fun hash => ?_⟩
  rw [verify_proof_eq]
  rfl

/-- C4 counterexample: with a well-formed proof (correct type and
cryptosuite) but a public key lacking the multibase `'z'` prefix,
`verify_proof` does not return false — it raises the `InvalidKey` error. -/
theorem c4_missing_prefix_raises_error :
    ProofSuite.verify_proof constHash32 cCred c1proof c4key =
      .error .InvalidKey ∧
    (Except.error VErr.InvalidKey ≠ (.ok false : Except VErr Bool)) := by
  exact ⟨by rfl, by simp⟩

/-- C4 amended: for every public key of at least 20 ASCII bytes — on
shorter keys the source aborts in the unconditional logging slice
`&public_key_multibase[..20]` (proof.rs 313) before any check runs, so it
neither returns false nor an error there — `verify_proof` returns false
(not an error) on a `proof_type` or `cryptosuite` mismatch, and wrong
*lengths* are never rejected — every `'z'`-prefixed key decodes to exactly
32 bytes and every `'z'`-prefixed proof value to exactly 64 bytes — but a
key or proof value missing the `'z'` prefix makes `verify_proof` return the
`InvalidKey` error instead of false. -/
theorem c4_fail_closed_amended (hash : List Nat → List Nat)
    (credential_json : List Nat) (proof : DataIntegrityProof)
    (public_key_multibase : List Nat)
    (hklen : 20 ≤ public_key_multibase.length)
    (hkascii : ∀ b ∈ public_key_multibase, b < 128) :
    (proof.proof_type ≠ strBytes ("DataIntegrityProof") →
      ProofSuite.verify_proof hash credential_json proof public_key_multibase =
        .ok false) ∧
    (proof.cryptosuite ≠ strBytes ("eddsa-rdfc-2022") →
      proof.proof_type = strBytes ("DataIntegrityProof") →
      ProofSuite.verify_proof hash credential_json proof public_key_multibase =
        .ok false) ∧
    (proof.proof_type = strBytes ("DataIntegrityProof") →
      proof.cryptosuite = strBytes ("eddsa-rdfc-2022") →
      public_key_multibase.head? ≠ some 122 →
      ProofSuite.verify_proof hash credential_json proof public_key_multibase =
        .error .InvalidKey) ∧
    (proof.proof_type = strBytes ("DataIntegrityProof") →
      proof.cryptosuite = strBytes ("eddsa-rdfc-2022") →
      public_key_multibase.head? = some 122 →
      proof.proof_value.head? ≠ some 122 →
      ProofSuite.verify_proof hash credential_json proof public_key_multibase =
        .error .InvalidKey) ∧
    (∀ pub, ProofSuite.decode_multibase_key public_key_multibase = .ok pub →
      pub.length = 32) ∧
    (∀ sig, ProofSuite.decode_proof_value proof.proof_value = .ok sig →
      sig.length = 64) := by
  refine ⟨?_, ?_, ?_, ?_,
    fun pub h => decode_multibase_key_ok_length _ pub h,
    fun sig h => decode_proof_value_ok_length _ sig h⟩
  · intro ht
    rw [verify_proof_eq, if_pos ht]
  · intro hc ht
    rw [verify_proof_eq, if_neg (by simpa using ht), if_pos hc]
  · intro ht hc hz
    rw [verify_proof_eq, if_neg (by simpa using ht), if_neg (by simpa using hc),
      decode_multibase_key_not_z _ hz]
  · intro ht hc hz hv
    rw [verify_proof_eq, if_neg (by simpa using ht), if_neg (by simpa using hc)]
    obtain ⟨pub, hpub⟩ := decode_multibase_key_z_ok _ hz
    rw [hpub, decode_proof_value_not_z _ hv]

/-- Witness for C4 amended: the type-mismatch branch returns false, the
missing-prefix branch errors. -/
theorem c4_fail_closed_amended_witness :
    ProofSuite.verify_proof constHash32 cCred c4wrongType cKey = .ok false ∧
    ProofSuite.verify_proof constHash32 cCred c1proof c4key =
      .error .InvalidKey := by
  exact ⟨(c4_fail_closed_amended constHash32 cCred c4wrongType cKey
      (by decide) (by decide)).1 (by decide),
    (c4_fail_closed_amended constHash32 cCred c1proof c4key
      (by decide) (by decide)).2.2.1 (by rfl) (by rfl) (by decide)⟩

/-- C5 counterexample: a proof value encoding 63 signature bytes
(`'z'` + 126 hex characters, hex-decoding to `0xaa`×63) is not rejected by
`verify_proof` — the decoder silently coerces it to 64 bytes, hashing
proceeds, and the development-mode verifier accepts the credential. -/
theorem c5_sixtythree_byte_signature_accepted :
    hexDecode c5proof.proof_value.tail = some (List.replicate 63 170) ∧
    ProofSuite.verify_proof constHash32 cCred c5proof cKey = .ok true := by
  exact ⟨by rfl, by rfl⟩

/-- C5 amended: no decoded signature of any length other than 64 can reach
the verifier — `decode_proof_value` coerces every accepted proof value to
exactly 64 bytes (so no length error is ever raised for a 63-byte encoding),
and a direct 63-byte signature given to `verify_ed25519_signature_solana`
yields `Ok(false)` — a negative verdict, not a length/format error — with an
answer independent of the hash oracle, i.e. decided before any hashing
matters. -/
theorem c5_decode_length_amended :
    (∀ v sig, ProofSuite.decode_proof_value v = .ok sig → sig.length = 64) ∧
    (∀ (hash : List Nat → List Nat) (message sig public_key : List Nat),
      sig.length = 63 →
      ProofSuite.verify_ed25519_signature_solana hash message sig public_key =
        .ok false) := by
  refine ⟨fun v sig h => decode_proof_value_ok_length v sig h,
    fun hash message sig public_key h => ?_⟩
  rw [ed25519_solana_eq]
  simp [h]

/-- Witness for C5 amended at a concrete 63-byte signature and the concrete
126-hex-character proof value. -/
theorem c5_decode_length_amended_witness :
    (List.replicate 64 97).length = 64 ∧
    ProofSuite.verify_ed25519_signature_solana constHash32 []
      (List.replicate 63 1) [] = .ok false := by
  exact ⟨c5_decode_length_amended.1 c5proof.proof_value
      (List.replicate 64 97) (by rfl),
    c5_decode_length_amended.2 constHash32 [] (List.replicate 63 1) [] (by rfl)⟩

/-- C6 counterexample: a payload that passes the issuer-equality check (its
`iss` is the expected `did:sol:ABC`) and all three non-emptiness checks, and
whose `iss` differs from `vc.issuer.id`, is nevertheless rejected with
`CredentialExpired` — not `ClaimMismatch` — because the verifier runs the
`exp`/`nbf` checks before the claim-binding checks and the payload carries an
expired `exp`. -/
theorem c6_expired_mismatch_not_claim_mismatch :
    validate_jwt_claims c6payload 1 = .error .CredentialExpired ∧
    c6payload.iss = "did:sol:ABC" ∧
    c6payload.vc.issuer.id = "did:sol:XYZ" ∧
    c6payload.iss ≠ c6payload.vc.issuer.id ∧
    c6payload.iss ≠ "" ∧ c6payload.sub ≠ "" ∧ c6payload.jti ≠ "" ∧
    (Except.error VErr.CredentialExpired ≠
      (.error .ClaimMismatch : Except VErr Unit)) := by
  exact ⟨by rfl, by rfl, by rfl, by decide, by decide, by decide, by decide,
    by simp⟩

/-- C6 amended: for every payload that passes the issuer-equality,
non-emptiness *and* `nbf`/`exp` temporal checks, any of the three
claim-binding mismatches (`iss` vs `vc.issuer.id`, `sub` vs
`vc.credentialSubject.id`, `jti` vs `vc.id`) makes `validate_jwt_claims`
reject with `ClaimMismatch`. -/
theorem c6_claim_mismatch_amended (p : JwtPayload) (t : Int)
    (hiss : p.iss ≠ "") (hsub : p.sub ≠ "") (hjti : p.jti ≠ "")
    (hnbf : ∀ n, p.nbf = some n → n ≤ t)
    (hexp : ∀ e, p.exp = some e → t ≤ e)
    (hmis : p.iss ≠ p.vc.issuer.id ∨ p.sub ≠ p.vc.credential_subject.id ∨
      p.jti ≠ p.vc.id) :
    validate_jwt_claims p t = .error .ClaimMismatch := by
  have hn : (match p.nbf with
             | some nbf => decide (t < nbf)
             | none => false) = false := by
    cases hp : p.nbf with
    | none => rfl
    | some n =>
      simp only [decide_eq_false_iff_not]
      exact not_lt.mpr (hnbf n hp)
  have he : (match p.exp with
             | some exp => decide (t > exp)
             | none => false) = false := by
    cases hp : p.exp with
    | none => rfl
    | some e =>
      simp only [decide_eq_false_iff_not]
      exact not_lt.mpr (hexp e hp)
  unfold validate_jwt_claims
  rw [if_neg hiss, if_neg hsub, if_neg hjti, hn, he]
  simp only [Bool.false_eq_true, if_false]
  by_cases h1 : p.iss = p.vc.issuer.id
  · rw [if_neg (by simpa using h1)]
    by_cases h2 : p.sub = p.vc.credential_subject.id
    · rw [if_neg (by simpa using h2)]
      rcases hmis with hm | hm | hm
      · exact absurd h1 hm
      · exact absurd h2 hm
      · rw [if_pos hm]
    · rw [if_pos h2]
  · rw [if_pos h1]

/-- Witness for C6 amended: the scenario payload without its `exp` claim is
rejected with `ClaimMismatch`. -/
theorem c6_claim_mismatch_amended_witness :
    validate_jwt_claims { c6payload with exp := none } 0 =
      .error .ClaimMismatch := by
  exact c6_claim_mismatch_amended { c6payload with exp := none } 0
    (by decide) (by decide) (by decide)
    (fun n h => Option.noConfusion h) (fun e h => Option.noConfusion h)
    (Or.inl (by decide))

/-- C8 counterexample: with 35 errors, 1 warning and 14 successes the integer
formula of the claim gives `100 * 145 / 500 = 29`, but the source's
double-precision pipeline stores 28 (the correctly rounded double of
`29/100` is just below `0.29`, and multiplying by 100 lands just below 29,
which the `as u8` cast truncates).  Moreover, on an empty report the early
return leaves `is_valid` untouched (false for a fresh report) even though
zero errors were recorded. -/
theorem c8_float_score_differs_from_integer_formula :
    (c8report.calculate_compliance_score).compliance_score = 28 ∧
    100 * (14 * 10 + 1 * 5) / ((35 + 1 + 14) * 10) = 29 ∧
    (ValidationReport.new.calculate_compliance_score).is_valid = false ∧
    ValidationReport.new.errors.length = 0 := by
  exact ⟨by decide, by norm_num, by rfl, by rfl⟩

/-- C8 amended: when no check was recorded the score is set to 0 and
`is_valid` is left unchanged; otherwise `is_valid` holds exactly when no
error was recorded, and the stored score is the saturating `u8` truncation of
the IEEE-754 double evaluation of
`(successes*10 + warnings*5) / ((errors+warnings+successes)*10) * 100`
(which can fall one below the exact truncated integer formula of the
claim). -/
theorem c8_score_amended (r : ValidationReport) :
    (r.errors.length + r.warnings.length + r.successes.length = 0 →
      (r.calculate_compliance_score).compliance_score = 0 ∧
      (r.calculate_compliance_score).is_valid = r.is_valid) ∧
    (r.errors.length + r.warnings.length + r.successes.length ≠ 0 →
      ((r.calculate_compliance_score).is_valid = true ↔
        r.errors.length = 0) ∧
      (r.calculate_compliance_score).compliance_score =
        complianceScoreF64
          (r.successes.length * 10 + r.warnings.length * 5)
          ((r.errors.length + r.warnings.length + r.successes.length) * 10)) := by
  constructor
  · intro h
    unfold ValidationReport.calculate_compliance_score
    rw [if_pos h]
    exact ⟨rfl, rfl⟩
  · intro h
    unfold ValidationReport.calculate_compliance_score
    rw [if_neg h]
    dsimp only
    constructor
    · simp [List.isEmpty_iff, List.length_eq_zero]
    · simp
/-- Witness for C8 amended at the 35/1/14 report. -/
theorem c8_score_amended_witness :
    ((c8report.calculate_compliance_score).is_valid = true ↔
      c8report.errors.length = 0) ∧
    (c8report.calculate_compliance_score).compliance_score =
      complianceScoreF64 145 500 := by
  have h := (c8_score_amended c8report).2 (by decide)
  exact ⟨h.1, h.2⟩

/-- C9: whenever the scan of `resolve_verification_method` finds a matching
verification method whose `publicKeyMultibase` starts with `'z'`, the
returned public key is the constant 32-byte zero vector — independent of the
key material actually stored in the resolved document. -/
theorem c9_resolver_returns_zero_key (did_doc : DidDocument)
    (did fragment : List Nat) (vm : VerificationMethod) (k : List Nat)
    (hfind : did_doc.verification_method.find?
      (fun vm => vm.id == did ++ strBytes ("#") ++ fragment) = some vm)
    (hkey : vm.public_key_multibase = some k)
    (hz : k.head? = some 122) :
    DidResolver.resolve_verification_method_in did_doc did (some fragment) =
      .ok (List.replicate 32 0) := by
  unfold DidResolver.resolve_verification_method_in
  dsimp only
  rw [hfind]
  unfold DidResolver.extract_public_key
  dsimp only
  rw [hkey]
  dsimp only
  unfold DidResolver.decode_multibase_key
  rw [if_pos hz]

/-- Witness for C9: on `c9doc` the stored key material is non-zero, yet the
resolver extracts the all-zero key. -/
theorem c9_resolver_returns_zero_key_witness :
    DidResolver.resolve_verification_method_in c9doc
      (strBytes ("did:key:zX")) (some (strBytes ("zX"))) =
      .ok (List.replicate 32 0) ∧
    ((strBytes ("zDEADBEEFDEADBEEFDEADBEEFDEADBEEF")).drop 1).any
      (fun b => b != 0) = true := by
  exact ⟨c9_resolver_returns_zero_key c9doc (strBytes ("did:key:zX"))
    (strBytes ("zX")) c9vm (strBytes ("zDEADBEEFDEADBEEFDEADBEEFDEADBEEF"))
    (by rfl) (by rfl) (by rfl), by decide⟩

/-- Frame facts of a successful `revoke_credential`: capacity and bit-array
length are unchanged. -/
theorem revoke_credential_frame (s : RevocationList) (i : Nat) (ts : String)
    (s' : RevocationList) (h : s.revoke_credential i ts = .ok s') :
    s'.capacity = s.capacity ∧
    s'.status_bits.length = s.status_bits.length := by
  unfold RevocationList.revoke_credential at h
  split at h
  · exact Except.noConfusion h
  · dsimp only at h
    split at h
    · exact Except.noConfusion h
    · have h' := (Except.ok.injEq _ _).mp h
      subst h'
      exact ⟨rfl, by simp [List.length_set]⟩

/-- Complete description of a successful `reactivate_credential`: capacity
and length are unchanged, the addressed bit is cleared, every other bit keeps
its value. -/
theorem reactivate_credential_bits (s : RevocationList) (i : Nat) (ts : String)
    (s' : RevocationList) (h : s.reactivate_credential i ts = .ok s') :
    s'.capacity = s.capacity ∧
    s'.status_bits.length = s.status_bits.length ∧
    s'.bitTest i = false ∧
    (∀ j, j ≠ i → s'.bitTest j = s.bitTest j) := by
  unfold RevocationList.reactivate_credential at h
  split at h
  · exact Except.noConfusion h
  · dsimp only at h
    split at h
    · exact Except.noConfusion h
    · rename_i hcap hlen
      have hlen' : i / 8 < s.status_bits.length := by omega
      have h' := (Except.ok.injEq _ _).mp h
      subst h'
      refine ⟨rfl, by simp [List.length_set], ?_, ?_⟩
      · show ((s.status_bits.set (i / 8) _).getD (i / 8) 0).testBit (i % 8) = false
        rw [getD_set_self _ _ _ (by simpa [List.length_set] using hlen'),
          testBit_clear_mask _ _ _ (Nat.mod_lt _ (by norm_num))
            (Nat.mod_lt _ (by norm_num))]
        simp
      · intro j hj
        show ((s.status_bits.set (i / 8) _).getD (j / 8) 0).testBit (j % 8) =
          s.bitTest j
        by_cases hb : i / 8 = j / 8
        · rw [← hb, getD_set_self _ _ _ (by simpa [List.length_set] using hlen'),
            testBit_clear_mask _ _ _ (Nat.mod_lt _ (by norm_num))
              (Nat.mod_lt _ (by norm_num))]
          have hm : ¬ i % 8 = j % 8 := by omega
          simp [RevocationList.bitTest, hm, ← hb]
        · rw [getD_set_ne _ _ _ _ hb]
          rfl

/-- The revoke loop of `batch_operation` succeeds on in-bounds indices and
preserves capacity and bit-array length. -/
theorem foldlM_revoke_ok (ts : String) (l : List Nat) :
    ∀ s : RevocationList, (∀ j ∈ l, j < s.capacity) →
      s.capacity ≤ 8 * s.status_bits.length →
      ∃ s', l.foldlM (fun st index => st.revoke_credential index ts) s = .ok s' ∧
        s'.capacity = s.capacity ∧
        s'.status_bits.length = s.status_bits.length := by
  induction l with
  | nil => exact fun s _ _ => ⟨s, rfl, rfl, rfl⟩
  | cons a t ih =>
    intro s hb hinv
    have ha : a < s.capacity := hb a (by simp)
    have hl : a / 8 < s.status_bits.length := by
      rw [Nat.div_lt_iff_lt_mul (by norm_num)]
      omega
    rw [List.foldlM_cons, revoke_credential_ok s a ts ha hl]
    set s1 : RevocationList :=
      { s with status_bits := s.status_bits.set (a / 8)
                 ((s.status_bits.getD (a / 8) 0) ||| (1 <<< (a % 8)))
               updated_at := ts } with hs1
    obtain ⟨s', h1, h2, h3⟩ := ih s1
      (fun j hj => hb j (by simp [hj]))
      (by simp only [hs1, List.length_set]; exact hinv)
    refine ⟨s', h1, ?_, ?_⟩
    · rw [h2, hs1]
    · rw [h3, hs1]
      simp [List.length_set]

/-- The reactivate loop of `batch_operation` succeeds on in-bounds indices,
clears every listed bit, and never sets a bit that was clear. -/
theorem foldlM_reactivate_clears (ts : String) (l : List Nat) :
    ∀ s : RevocationList, (∀ j ∈ l, j < s.capacity) →
      s.capacity ≤ 8 * s.status_bits.length →
      ∃ s', l.foldlM (fun st index => st.reactivate_credential index ts) s = .ok s' ∧
        s'.capacity = s.capacity ∧
        s'.status_bits.length = s.status_bits.length ∧
        (∀ i, s.bitTest i = false → s'.bitTest i = false) ∧
        (∀ i ∈ l, s'.bitTest i = false) := by
  induction l with
  | nil => exact fun s _ _ => ⟨s, rfl, rfl, rfl, fun _ h => h, by simp⟩
  | cons a t ih =>
    intro s hb hinv
    have ha : a < s.capacity := hb a (by simp)
    have hl : a / 8 < s.status_bits.length := by
      rw [Nat.div_lt_iff_lt_mul (by norm_num)]
      omega
    rw [List.foldlM_cons, reactivate_credential_ok s a ts ha hl]
    set s1 : RevocationList :=
      { s with status_bits := s.status_bits.set (a / 8)
                 ((s.status_bits.getD (a / 8) 0) &&& (255 ^^^ (1 <<< (a % 8))))
               updated_at := ts } with hs1
    have hfacts := reactivate_credential_bits s a ts s1
      (by rw [reactivate_credential_ok s a ts ha hl])
    obtain ⟨hc1, hl1, hbit1, hother1⟩ := hfacts
    obtain ⟨s', h1, h2, h3, hmono, hall⟩ := ih s1
      (fun j hj => hc1 ▸ hb j (by simp [hj]))
      (by rw [hl1, hc1]; exact hinv)
    refine ⟨s', h1, by rw [h2, hc1], by rw [h3, hl1], ?_, ?_⟩
    · intro i hi
      by_cases hia : i = a
      · exact hmono i (hia ▸ hbit1)
      · exact hmono i ((hother1 i hia).trans hi)
    · intro i hi
      rcases List.mem_cons.mp hi with hia | hit
      · exact hmono i (hia ▸ hbit1)
      · exact hall i hit

/-- C3: when every index of a `batch_operation` call is below capacity (and
the list satisfies the structural invariant `capacity ≤ 8 · |status_bits|`
that every list built by `new` has), the call succeeds — revokes first,
reactivations second — and any index present in both lists ends up active:
`is_revoked` answers false after the call. -/
theorem c3_batch_reactivation_wins (s : RevocationList)
    (op : BatchRevocationOperation)
    (hinv : s.capacity ≤ 8 * s.status_bits.length)
    (hrev : ∀ j ∈ op.indices_to_revoke, j < s.capacity)
    (hrea : ∀ j ∈ op.indices_to_reactivate, j < s.capacity)
    (i : Nat) (hiR : i ∈ op.indices_to_revoke)
    (hiA : i ∈ op.indices_to_reactivate) :
    ∃ s', s.batch_operation op = .ok s' ∧ s'.is_revoked i = .ok false := by
  obtain ⟨s1, h1, hc1, hl1⟩ :=
    foldlM_revoke_ok op.timestamp op.indices_to_revoke s hrev hinv
  obtain ⟨s2, h2, hc2, hl2, hmono, hall⟩ :=
    foldlM_reactivate_clears op.timestamp op.indices_to_reactivate s1
      (fun j hj => hc1 ▸ hrea j hj) (by rw [hc1, hl1]; exact hinv)
  refine ⟨s2, ?_, ?_⟩
  · unfold RevocationList.batch_operation
    rw [h1]
    show (op.indices_to_reactivate.foldlM
      (fun st index => st.reactivate_credential index op.timestamp) s1 >>=
      fun s2 => pure s2) = .ok s2
    rw [h2]
    rfl
  · have hcap : i < s2.capacity := by
      rw [hc2, hc1]; exact hrea i hiA
    have hlen : i / 8 < s2.status_bits.length := by
      rw [hl2, hl1, Nat.div_lt_iff_lt_mul (by norm_num)]
      have := hrea i hiA
      omega
    rw [is_revoked_eq s2 i hcap hlen, hall i hiA]

/-- Witness for C3: on the fresh capacity-8 list, revoking 3 and 5 while
reactivating 3 leaves only bit 5 set and index 3 active. -/
theorem c3_batch_reactivation_wins_witness :
    c2list.batch_operation c3op = .ok c3after ∧
    c3after.is_revoked 3 = .ok false := by
  obtain ⟨s', h1, h2⟩ := c3_batch_reactivation_wins c2list c3op
    (by decide) (by decide) (by decide) 3 (by decide) (by decide)
  have hs : s' = c3after := by
    have h5 : (Except.ok s' : Except VErr RevocationList) = .ok c3after := by
      rw [← h1]; rfl
    exact (Except.ok.injEq _ _).mp h5
  subst hs
  exact ⟨h1, h2⟩

/-- C10: `add_credential` succeeds for every `index < capacity` regardless of
`current_size` (even when `current_size` already equals `capacity`),
incrementing `current_size` by exactly one and leaving `capacity` and the bit
array untouched; hence `current_size` can exceed `capacity`, and none of the
revocation-list operations ever produces `StatusListFull`. -/
theorem c10_add_credential_unchecked_growth :
    (∀ (s : RevocationList) (i : Nat) (ts : String), i < s.capacity →
      s.current_size + 1 < U32 →
      ∃ s', s.add_credential i ts = .ok s' ∧
        s'.current_size = s.current_size + 1 ∧
        s'.capacity = s.capacity ∧ s'.status_bits = s.status_bits) ∧
    (∀ (s : RevocationList) (i : Nat) (ts : String)
        (op : BatchRevocationOperation),
      s.add_credential i ts ≠ .error .StatusListFull ∧
      s.revoke_credential i ts ≠ .error .StatusListFull ∧
      s.reactivate_credential i ts ≠ .error .StatusListFull ∧
      s.is_revoked i ≠ .error .StatusListFull ∧
      s.batch_operation op ≠ .error .StatusListFull) ∧
    ((c10full.add_credential 0 "").map
      (fun s' => decide (s'.capacity < s'.current_size)) = .ok true) := by
  refine ⟨?_, ?_, by rfl⟩
  · intro s i ts hi hsize
    refine ⟨{ s with current_size := (s.current_size + 1) % U32
                     updated_at := ts }, ?_, ?_, rfl, rfl⟩
    · unfold RevocationList.add_credential
      rw [if_neg (by omega)]
    · simpa using Nat.mod_eq_of_lt hsize
  · intro s i ts op
    refine ⟨?_, ?_, ?_, ?_, ?_⟩ <;> intro h
    · exact absurd (add_credential_error_shape s i ts _ h) (by simp)
    · exact absurd (revoke_credential_error_shape s i ts _ h) (by simp)
    · exact absurd (reactivate_credential_error_shape s i ts _ h) (by simp)
    · exact absurd (is_revoked_error_shape s i _ h) (by simp)
    · exact absurd (batch_operation_error_shape s op _ h) (by simp)

/-- Witness for C10: adding to the already-full `c10full` (capacity 1,
size 1) succeeds and pushes `current_size` to 2. -/
theorem c10_add_credential_unchecked_growth_witness :
    c10full.add_credential 0 "" = .ok c10after ∧
    c10after.current_size = 2 ∧ c10after.capacity = 1 ∧
    c10after.status_bits = c10full.status_bits := by
  obtain ⟨s', h1, h2, h3, h4⟩ :=
    c10_add_credential_unchecked_growth.1 c10full 0 "" (by decide) (by decide)
  have hs : s' = c10after := by
    have h5 : (Except.ok s' : Except VErr RevocationList) = .ok c10after := by
      rw [← h1]; rfl
    exact ((Except.ok.injEq _ _).mp h5)
  subst hs
  exact ⟨h1, h2.trans rfl, h3.trans rfl, h4⟩
